import Mathlib

/-!
Shallow embedding of the geotagged-property CRUD service (`src/main.py`,
`src/config.py`) and proofs of the spec's claims about it.

Modelling conventions:
* Python floats for stored coordinates are modelled by `PyFloat`
  (a finite rational, or one of the non-finite values `inf`, `ninf`, `nan`);
  resolved geocode coordinates and distances are rationals.
* The Redis geocode cache is an association list of
  (key, value, absolute expiry time); the current time is passed explicitly
  and the TTL check (`now < expiry`) models Redis key expiry for `ex=86400`.
* The external geocoding provider's decoded JSON response is a `JValue`;
  network transport and the HTTP client are out of scope (the spec treats the
  provider as an external lookup service).
* PostGIS `ST_DistanceSphere` is an external spatial-store primitive, so it is
  passed to the query logic as an explicit function `Point → Point → ℚ`.
* The relational store is a list of `Property` rows; `id` is the primary key.
-/

set_option autoImplicit false

namespace GeoMap

/-- A Python float value: a finite real (modelled as a rational) or one of
the non-finite floats. Pydantic's `float` field type accepts all of these
(its default `allow_inf_nan` does not reject `inf`/`nan`). -/
inductive PyFloat where
  | finite (q : ℚ)
  | inf
  | ninf
  | nan
  deriving DecidableEq, Repr

/-- A point geometry: the information content of
`WKTElement('POINT(x y)', srid=...)` / `ST_MakePoint(x, y)` — an x (longitude)
and y (latitude) coordinate plus a spatial reference id. -/
structure Point where
  x : PyFloat
  y : PyFloat
  srid : ℕ
  deriving DecidableEq, Repr

/-- `WKTElement(f'POINT({lon} {lat})', srid=4326)` as built in
`create_property` and `update_property`. -/
def WKTPoint (lon lat : PyFloat) : Point := ⟨lon, lat, 4326⟩

/-- `func.ST_MakePoint(lon, lat)` as built in `get_nearby_properties`.
PostGIS `ST_MakePoint` produces a geometry with no SRID assigned (srid 0). -/
def ST_MakePoint (lon lat : ℚ) : Point := ⟨.finite lon, .finite lat, 0⟩

/-- A row of the `properties` table (the `Property` ORM model). -/
structure Property where
  id : ℕ
  name : String
  address : String
  latitude : PyFloat
  longitude : PyFloat
  location : Point
  deriving DecidableEq, Repr

/-- The request body schema `PropertyCreate` (pydantic): `name`, `address`,
and coordinates that must parse as floats (non-finite floats included). -/
structure PropertyCreate where
  name : String
  address : String
  latitude : PyFloat
  longitude : PyFloat
  deriving DecidableEq, Repr

/-- Decoded JSON, as produced by `resp.json()`. -/
inductive JValue where
  | null
  | bool (b : Bool)
  | num (q : ℚ)
  | str (s : String)
  | arr (xs : List JValue)
  | obj (fields : List (String × JValue))

/-- The geocode cache: (key, cached coordinate pair, absolute expiry time). -/
abbrev Cache := List (String × (ℚ × ℚ) × ℕ)

/-- `redis.get(key)` at time `now`: the stored value when the key is present
and not yet expired (Redis removes a key once its TTL has elapsed). -/
def cacheGet (c : Cache) (now : ℕ) (key : String) : Option (ℚ × ℚ) :=
  match c.find? (fun e => e.1 == key) with
  | some (_, v, exp) => if now < exp then some v else none
  | none => none

/-- `redis.set(key, value, ex=ttl)` at time `now`: stores the value with
absolute expiry `now + ttl`, overwriting any existing entry for the key. -/
def cacheSet (c : Cache) (now : ℕ) (key : String) (v : ℚ × ℚ) (ttl : ℕ) : Cache :=
  (key, v, now + ttl) :: c.filter (fun e => ¬ e.1 == key)

/-- Python `s.lower()`, modelled character-wise on ASCII (the spec's
normalization rule requires at minimum ASCII lower-casing). -/
def strLower (s : String) : String := String.mk (s.data.map Char.toLower)

/-- Python subscription `v['k']` on a decoded JSON value: a `KeyError` when a
dict lacks the key, a `TypeError` on non-dict values. -/
def pySubscript (v : JValue) (k : String) : Except String JValue :=
  match v with
  | .obj fields =>
    match fields.find? (fun f => f.1 == k) with
    | some f => .ok f.2
    | none => .error "KeyError"
  | _ => .error "TypeError"

/-- Fold a digit list into a natural number. -/
def digitsVal (ds : List Char) : ℕ :=
  ds.foldl (fun a c => a * 10 + (c.toNat - 48)) 0

/-- Python `float(s)` on a string (decimal subset: optional sign, digits,
optional fractional part; the exponent/inf/nan spellings are not needed by
any claim and are omitted). `none` models a `ValueError`. -/
def parseDecimal (s : String) : Option ℚ :=
  let cs := s.toList
  let signed : Bool × List Char :=
    match cs with
    | '-' :: r => (true, r)
    | '+' :: r => (false, r)
    | r => (false, r)
  let intPart := signed.2.takeWhile (fun c => c.isDigit)
  let rest := signed.2.dropWhile (fun c => c.isDigit)
  let mag : Option ℚ :=
    match rest with
    | [] => if intPart.isEmpty then none else some (digitsVal intPart)
    | '.' :: frac =>
      if frac.all (fun c => c.isDigit) && !(intPart.isEmpty && frac.isEmpty) then
        some ((digitsVal intPart : ℚ) + (digitsVal frac : ℚ) / (10 : ℚ) ^ frac.length)
      else none
    | _ => none
  mag.map (fun m => if signed.1 then -m else m)

/-- Python `float(v)` on a decoded JSON value: numbers and booleans convert,
numeric strings parse (`ValueError` otherwise), other types raise `TypeError`. -/
def pyFloat (v : JValue) : Except String ℚ :=
  match v with
  | .num q => .ok q
  | .bool b => .ok (if b then 1 else 0)
  | .str s =>
    match parseDecimal s with
    | some q => .ok q
    | none => .error "ValueError"
  | _ => .error "TypeError"

/-- `float(v['k'])`: subscription followed by float conversion, propagating
the first raised error. -/
def pyGetFloat (v : JValue) (k : String) : Except String ℚ :=
  match pySubscript v k with
  | .error e => .error e
  | .ok x => pyFloat x

/-- A successful geocode resolution: the coordinates, the cache state after
the call, and whether the external provider was contacted. -/
structure GeocodeOk where
  lat : ℚ
  lon : ℚ
  cache : Cache
  externalCall : Bool
  deriving DecidableEq

/-- Outcome of `geocode_location`: success, a raised `HTTPException`
(status, detail), or an uncaught Python error (`KeyError`/`ValueError`/
`TypeError`). Each outcome carries the cache state after the call. -/
inductive GeocodeResult where
  | ok (r : GeocodeOk)
  | httpError (status : ℕ) (detail : String) (cache : Cache)
  | pyError (e : String) (cache : Cache)
  deriving DecidableEq

/-- `geocode_location(query)` from `src/main.py`:
look up `'geocode:' + query.lower()` in the cache; on a miss, take the
provider's decoded response, raise HTTP 400 `'Location not found'` unless it
is a non-empty list, parse `float(results[0]['lat'])` and
`float(results[0]['lon'])`, store the pair with a 24-hour expiry, and return
it. -/
def geocode_location (c : Cache) (now : ℕ) (provider : JValue) (query : String) :
    GeocodeResult :=
  let key := "geocode:" ++ strLower query
  match cacheGet c now key with
  | some (lat, lon) => .ok ⟨lat, lon, c, false⟩
  | none =>
    match provider with
    | .arr (first :: _) =>
      match pyGetFloat first "lat" with
      | .error e => .pyError e c
      | .ok lat =>
        match pyGetFloat first "lon" with
        | .error e => .pyError e c
        | .ok lon => .ok ⟨lat, lon, cacheSet c now key (lat, lon) 86400, true⟩
    | _ => .httpError 400 "Location not found" c

/-- Python `round(x, 2)` on an exact value: round to 2 decimal places with
ties going to the even last digit (banker's rounding, as documented for
Python's built-in `round`). -/
def roundHalfEven (x : ℚ) : ℤ :=
  let f := ⌊x⌋
  let r := x - f
  if r < 1 / 2 then f
  else if 1 / 2 < r then f + 1
  else if Even f then f else f + 1

/-- `round(x, 2)`: round to 2 decimal places. -/
def round2 (x : ℚ) : ℚ := (roundHalfEven (x * 100) : ℚ) / 100

/-- One row produced by the query in `get_nearby_properties`: the property's
public columns plus the labelled `distance_km` column. -/
structure NearbyRow where
  id : ℕ
  name : String
  address : String
  latitude : PyFloat
  longitude : PyFloat
  distance_km : ℚ
  deriving DecidableEq, Repr

/-- The default radius of `get_nearby_properties` (`radius_km: float = 50.0`). -/
def default_radius_km : ℚ := 50

/-- The SQL query inside `get_nearby_properties`, with PostGIS
`ST_DistanceSphere` supplied as the spatial store's external distance
function: keep the rows whose distance to `ST_MakePoint(lon, lat)` is at most
`radius_km * 1000`, order them ascending by that distance, and emit each
property's columns with `distance_km = distance / 1000` (unrounded). -/
def nearby_rows (distSphere : Point → Point → ℚ) (db : List Property)
    (lat lon radius_km : ℚ) : List NearbyRow :=
  let point := ST_MakePoint lon lat
  let dist := fun p : Property => distSphere p.location point
  ((db.filter (fun p => dist p ≤ radius_km * 1000)).mergeSort
      (fun a b => dist a ≤ dist b)).map
    (fun p => ⟨p.id, p.name, p.address, p.latitude, p.longitude, dist p / 1000⟩)

/-- `get_nearby_properties(db, lat, lon, radius_km)`: the rows of the query,
with `distance_km` rounded to 2 decimal places in the result dictionaries. -/
def get_nearby_properties (distSphere : Point → Point → ℚ) (db : List Property)
    (lat lon radius_km : ℚ) : List NearbyRow :=
  (nearby_rows distSphere db lat lon radius_km).map
    (fun r => { r with distance_km := round2 r.distance_km })

/-- The id the store assigns to the next inserted row (`Integer` primary
key: one greater than the largest id in use). -/
def nextId (db : List Property) : ℕ :=
  (db.map (fun p => p.id)).foldr max 0 + 1

/-- `create_property(prop)` (`POST /properties`): build the point geometry
from the request's longitude/latitude, insert the new row, and return the
stored record with its assigned id. No validation beyond the schema's float
typing occurs, so non-finite coordinates are persisted as-is. -/
def create_property (prop : PropertyCreate) (db : List Property) :
    Property × List Property :=
  let point := WKTPoint prop.longitude prop.latitude
  let db_prop : Property :=
    ⟨nextId db, prop.name, prop.address, prop.latitude, prop.longitude, point⟩
  (db_prop, db ++ [db_prop])

/-- An `HTTPException` as raised by the CRUD handlers: status and detail. -/
structure HTTPErr where
  status : ℕ
  detail : String
  deriving DecidableEq, Repr

/-- `get_property(property_id)` (`GET /properties/{id}`): the first row with
that id, or HTTP 404 `'Property not found'`. -/
def get_property (property_id : ℕ) (db : List Property) :
    Except HTTPErr Property :=
  match db.find? (fun p => p.id == property_id) with
  | some p => .ok p
  | none => .error ⟨404, "Property not found"⟩

/-- Replace every field of a row from the request body and recompute the
point geometry from the same longitude/latitude (lines 162-166). -/
def applyUpdate (prop_in : PropertyCreate) (p : Property) : Property :=
  ⟨p.id, prop_in.name, prop_in.address, prop_in.latitude, prop_in.longitude,
    WKTPoint prop_in.longitude prop_in.latitude⟩

/-- Rewrite the first row with the given id using `f`, leaving the rest. -/
def updateFirst (pid : ℕ) (f : Property → Property) :
    List Property → List Property
  | [] => []
  | p :: ps => if p.id == pid then f p :: ps else p :: updateFirst pid f ps

/-- `update_property(property_id, prop_in)` (`PUT /properties/{id}`): HTTP
404 if no row has the id; otherwise replace all fields, recompute the
geometry, and return the persisted record. -/
def update_property (property_id : ℕ) (prop_in : PropertyCreate)
    (db : List Property) : Except HTTPErr Property × List Property :=
  match db.find? (fun p => p.id == property_id) with
  | none => (.error ⟨404, "Property not found"⟩, db)
  | some p =>
    (.ok (applyUpdate prop_in p), updateFirst property_id (applyUpdate prop_in) db)

/-- `delete_property(property_id)` (`DELETE /properties/{id}`): HTTP 404 if
no row has the id; otherwise remove that row permanently. -/
def delete_property (property_id : ℕ) (db : List Property) :
    Except HTTPErr Unit × List Property :=
  match db.find? (fun p => p.id == property_id) with
  | none => (.error ⟨404, "Property not found"⟩, db)
  | some _ => (.ok (), db.eraseP (fun p => p.id == property_id))

/-- Outcome of the public `GET /properties/get/nearby` endpoint. -/
inductive NearbyOutcome where
  | ok (properties : List NearbyRow) (cache : Cache)
  | httpError (status : ℕ) (detail : String) (cache : Cache)
  | pyError (e : String) (cache : Cache)
  deriving DecidableEq

/-- The `nearby(location)` endpoint: geocode the location text, then call
`get_nearby_properties(db, lat, lon)` — with the radius argument omitted, so
the default `50.0` km is always used; geocoding failures propagate. -/
def nearby (c : Cache) (now : ℕ) (provider : JValue)
    (distSphere : Point → Point → ℚ) (db : List Property) (location : String) :
    NearbyOutcome :=
  match geocode_location c now provider location with
  | .ok r =>
    .ok (get_nearby_properties distSphere db r.lat r.lon default_radius_km) r.cache
  | .httpError s d c2 => .httpError s d c2
  | .pyError e c2 => .pyError e c2

/-- A mutating operation of the Property Repository. -/
inductive Op where
  | create (prop : PropertyCreate)
  | update (pid : ℕ) (prop_in : PropertyCreate)
  | delete (pid : ℕ)

/-- The store state after running one repository operation. -/
def applyOp (op : Op) (db : List Property) : List Property :=
  match op with
  | .create prop => (create_property prop db).2
  | .update pid prop_in => (update_property pid prop_in db).2
  | .delete pid => (delete_property pid db).2

/-- The location invariant: every stored row's derived geometry equals the
SRID-4326 point built from its own longitude and latitude. -/
def LocationInv (db : List Property) : Prop :=
  ∀ p ∈ db, p.location = WKTPoint p.longitude p.latitude

/-- Whether a decoded JSON value is a non-empty list — the exact condition
under which `geocode_location` proceeds past its `if not results or not
isinstance(results, list)` guard. -/
def isNonemptyList : JValue → Bool
  | .arr (_ :: _) => true
  | _ => false

/-! ### Helper lemmas -/

/-- A membership of the first-match update is a member of the original list
or the image under `f` of a member. -/
lemma mem_updateFirst {pid : ℕ} {f : Property → Property} {l : List Property}
    {q : Property} (hq : q ∈ updateFirst pid f l) :
    q ∈ l ∨ ∃ p ∈ l, q = f p := by
  induction l with
  | nil => simp [updateFirst] at hq
  | cons p ps ih =>
    rw [updateFirst] at hq
    by_cases hc : p.id == pid
    · rw [if_pos hc] at hq
      rcases List.mem_cons.1 hq with hq | hq
      · exact Or.inr ⟨p, by simp, hq⟩
      · exact Or.inl (List.mem_cons_of_mem _ hq)
    · rw [if_neg hc] at hq
      rcases List.mem_cons.1 hq with hq | hq
      · exact Or.inl (by simp [hq])
      · rcases ih hq with h | ⟨r, hr, hqr⟩
        · exact Or.inl (List.mem_cons_of_mem _ h)
        · exact Or.inr ⟨r, List.mem_cons_of_mem _ hr, hqr⟩

/-- Looking up a key right after storing it, before its expiry has elapsed,
returns the stored value. -/
lemma cacheGet_cacheSet_hit (c : Cache) (t t2 : ℕ) (k : String) (v : ℚ × ℚ)
    (ttl : ℕ) (h : t2 < t + ttl) :
    cacheGet (cacheSet c t k v ttl) t2 k = some v := by
  simp [cacheGet, cacheSet, List.find?, h]

/-- A successful `geocode_location` call that contacted the external provider
left the cache equal to the old cache with the resolved pair stored under the
normalized key for 24 hours. -/
lemma geocode_ok_external_shape (c : Cache) (t : ℕ) (provider : JValue)
    (q : String) (r : GeocodeOk)
    (h : geocode_location c t provider q = .ok r)
    (hext : r.externalCall = true) :
    r.cache = cacheSet c t ("geocode:" ++ strLower q) (r.lat, r.lon) 86400 := by
  simp only [geocode_location] at h
  cases hc : cacheGet c t ("geocode:" ++ strLower q) with
  | some v =>
    obtain ⟨lat, lon⟩ := v
    rw [hc] at h
    simp only at h
    injection h with h2
    subst h2
    simp at hext
  | none =>
    rw [hc] at h
    simp only at h
    repeat' split at h
    all_goals first
      | exact GeocodeResult.noConfusion h
      | (injection h with h2; subst h2; rfl)

/-! ### Claims -/

/-- C3: two successive `FindNearby` geocoding steps with the same normalized
(lower-cased) query within 24 hours issue at most one external call: after a
first call that contacted the provider and stored the coordinates under
`'geocode:' + lower(q)` with a 24-hour expiry, the second call returns the
same coordinates from the cache (`externalCall = false`, cache unchanged),
regardless of the provider's response at that time. -/
theorem geocode_cache_idempotent (c : Cache) (t0 t1 : ℕ) (p1 p2 : JValue)
    (q1 q2 : String) (r : GeocodeOk)
    (h1 : geocode_location c t0 p1 q1 = .ok r)
    (hext : r.externalCall = true)
    (hq : strLower q2 = strLower q1)
    (ht : t1 < t0 + 86400) :
    geocode_location r.cache t1 p2 q2 = .ok ⟨r.lat, r.lon, r.cache, false⟩ := by
  have hshape := geocode_ok_external_shape c t0 p1 q1 r h1 hext
  simp only [geocode_location, hq, hshape]
  rw [cacheGet_cacheSet_hit c t0 t1 _ _ _ ht]

/-- Witness for C3 at a concrete input: resolving "A" stores the pair, and a
later call for "a" (same normalized query, 100 s later, provider now
irrelevant) answers from the cache. -/
theorem geocode_cache_idempotent_witness :
    geocode_location [("geocode:a", ((1 : ℚ), (2 : ℚ)), 86400)] 100 JValue.null "a"
      = .ok ⟨1, 2, [("geocode:a", ((1 : ℚ), (2 : ℚ)), 86400)], false⟩ :=
  geocode_cache_idempotent [] 0 100
    (JValue.arr [JValue.obj [("lat", JValue.num 1), ("lon", JValue.num 2)]])
    JValue.null "A" "a" ⟨1, 2, [("geocode:a", ((1 : ℚ), (2 : ℚ)), 86400)], true⟩
    (by decide) rfl (by decide) (by decide)

/-- C5: a `geocode_location` call that fails with a raised `HTTPException`
(as `LocationNotFound` is) writes nothing to the geocode cache: the cache
after the failed call equals the cache before it. -/
theorem geocode_httpError_cache_unchanged (c : Cache) (now : ℕ)
    (provider : JValue) (q : String) (s : ℕ) (d : String) (c2 : Cache)
    (h : geocode_location c now provider q = .httpError s d c2) :
    c2 = c := by
  simp only [geocode_location] at h
  cases hc : cacheGet c now ("geocode:" ++ strLower q) with
  | some v =>
    obtain ⟨lat, lon⟩ := v
    rw [hc] at h
    simp only at h
    exact GeocodeResult.noConfusion h
  | none =>
    rw [hc] at h
    simp only at h
    repeat' split at h
    all_goals first
      | exact GeocodeResult.noConfusion h
      | (injection h with h1 h2 h3; exact h3.symm)

/-- Witness for C5 at a concrete input: an empty provider result list makes
the call fail with HTTP 400 and leaves the (empty) cache as it was. -/
theorem geocode_httpError_cache_unchanged_witness : ([] : Cache) = [] :=
  geocode_httpError_cache_unchanged [] 0 (JValue.arr []) "x" 400
    "Location not found" [] (by decide)

/-- C7: `Get`, `Update` and `Delete` on an id not present in the store each
fail with HTTP 404 `'Property not found'` — never any other error — and
leave the store unchanged. -/
theorem crud_notfound_404 (pid : ℕ) (prop_in : PropertyCreate)
    (db : List Property) (h : pid ∉ db.map (fun p => p.id)) :
    get_property pid db = .error ⟨404, "Property not found"⟩ ∧
    update_property pid prop_in db = (.error ⟨404, "Property not found"⟩, db) ∧
    delete_property pid db = (.error ⟨404, "Property not found"⟩, db) := by
  have hf : db.find? (fun p => p.id == pid) = none := by
    rw [List.find?_eq_none]
    intro x hx
    simp only [beq_iff_eq]
    intro he
    exact h (List.mem_map.2 ⟨x, hx, he⟩)
  exact ⟨by simp [get_property, hf], by simp [update_property, hf],
    by simp [delete_property, hf]⟩

/-- Witness for C7 at a concrete input: id 1 is absent from a one-row store
holding id 2. -/
theorem crud_notfound_404_witness :
    get_property 1 [⟨2, "n", "a", .finite 0, .finite 0, WKTPoint (.finite 0) (.finite 0)⟩]
        = .error ⟨404, "Property not found"⟩ ∧
    update_property 1 ⟨"n", "a", .finite 0, .finite 0⟩
        [⟨2, "n", "a", .finite 0, .finite 0, WKTPoint (.finite 0) (.finite 0)⟩]
      = (.error ⟨404, "Property not found"⟩,
        [⟨2, "n", "a", .finite 0, .finite 0, WKTPoint (.finite 0) (.finite 0)⟩]) ∧
    delete_property 1 [⟨2, "n", "a", .finite 0, .finite 0, WKTPoint (.finite 0) (.finite 0)⟩]
      = (.error ⟨404, "Property not found"⟩,
        [⟨2, "n", "a", .finite 0, .finite 0, WKTPoint (.finite 0) (.finite 0)⟩]) :=
  crud_notfound_404 1 ⟨"n", "a", .finite 0, .finite 0⟩
    [⟨2, "n", "a", .finite 0, .finite 0, WKTPoint (.finite 0) (.finite 0)⟩] (by decide)

/-- C8: the location invariant — every stored row's `location` equals the
SRID-4326 point built from its own `longitude` and `latitude` — is preserved
by every repository operation: `Create` and `Update` recompute the geometry
from the same coordinates they set, and no operation mutates `location`
independently. -/
theorem location_invariant_preserved (op : Op) (db : List Property)
    (h : LocationInv db) : LocationInv (applyOp op db) := by
  cases op with
  | create prop =>
    intro p hp
    simp only [applyOp, create_property] at hp
    rcases List.mem_append.1 hp with hp | hp
    · exact h p hp
    · simp only [List.mem_singleton] at hp
      subst hp
      rfl
  | update pid prop_in =>
    intro p hp
    simp only [applyOp, update_property] at hp
    split at hp
    · exact h p hp
    · rcases mem_updateFirst hp with hmem | ⟨q, _, rfl⟩
      · exact h p hmem
      · rfl
  | delete pid =>
    intro p hp
    simp only [applyOp, delete_property] at hp
    split at hp
    · exact h p hp
    · exact h p ((List.eraseP_sublist db).subset hp)

/-- Witness for C8 at a concrete input: an update on a valid one-row store
keeps the invariant. -/
theorem location_invariant_preserved_witness :
    LocationInv (applyOp (Op.update 1 ⟨"n2", "a2", .finite 3, .finite 4⟩)
      [⟨1, "n", "a", .finite 0, .finite 0, WKTPoint (.finite 0) (.finite 0)⟩]) :=
  location_invariant_preserved (Op.update 1 ⟨"n2", "a2", .finite 3, .finite 4⟩)
    [⟨1, "n", "a", .finite 0, .finite 0, WKTPoint (.finite 0) (.finite 0)⟩]
    (by intro p hp; simp only [List.mem_singleton] at hp; subst hp; rfl)

/-- C10: the public nearby endpoint takes only the location text; whenever
geocoding succeeds, its results are exactly those of
`get_nearby_properties` at radius 50 km — the default, since the endpoint
exposes no radius parameter. -/
theorem nearby_always_default_radius (c : Cache) (now : ℕ) (provider : JValue)
    (distSphere : Point → Point → ℚ) (db : List Property) (location : String)
    (r : GeocodeOk) (h : geocode_location c now provider location = .ok r) :
    nearby c now provider distSphere db location
      = .ok (get_nearby_properties distSphere db r.lat r.lon 50) r.cache := by
  simp only [nearby, h]
  rfl

/-- Witness for C10 at a concrete input: a cached location, an empty store. -/
theorem nearby_always_default_radius_witness :
    nearby [("geocode:x", ((1 : ℚ), (2 : ℚ)), 5)] 0 JValue.null (fun _ _ => 0) [] "x"
      = .ok (get_nearby_properties (fun _ _ => 0) [] 1 2 50)
          [("geocode:x", ((1 : ℚ), (2 : ℚ)), 5)] :=
  nearby_always_default_radius [("geocode:x", ((1 : ℚ), (2 : ℚ)), 5)] 0
    JValue.null (fun _ _ => 0) [] "x"
    ⟨1, 2, [("geocode:x", ((1 : ℚ), (2 : ℚ)), 5)], false⟩ (by decide)

/-- Sorting a list of properties by a rational measure yields a list that is
pairwise nondecreasing in that measure. -/
lemma pairwise_mergeSort_le (f : Property → ℚ) (l : List Property) :
    (l.mergeSort (fun a b => f a ≤ f b)).Pairwise (fun a b => f a ≤ f b) := by
  have hs := @List.sorted_mergeSort _ (fun a b => decide (f a ≤ f b))
    (fun a b c hab hbc => by
      simp only [decide_eq_true_eq] at *
      exact le_trans hab hbc)
    (fun a b => by
      simp only [Bool.or_eq_true, decide_eq_true_eq]
      exact le_total _ _) l
  exact hs.imp (fun hab => by simpa using hab)

/-- C1: a stored property appears in the `FindNearby` results exactly when
its sphere-model distance to the resolved point is at most
`radius_km * 1000` meters; the boundary (distance equal to the threshold) is
included, since the SQL filter is `<=`. -/
theorem nearby_radius_filter (distSphere : Point → Point → ℚ)
    (db : List Property) (lat lon radius_km : ℚ) (p : Property)
    (hp : p ∈ db) (hids : (db.map (fun q => q.id)).Nodup) :
    (∃ r ∈ get_nearby_properties distSphere db lat lon radius_km, r.id = p.id)
      ↔ distSphere p.location (ST_MakePoint lon lat) ≤ radius_km * 1000 := by
  constructor
  · rintro ⟨r, hr, hid⟩
    simp only [get_nearby_properties, nearby_rows, List.map_map, List.mem_map] at hr
    obtain ⟨q, hq, rfl⟩ := hr
    have hq2 := (List.mergeSort_perm _ _).subset hq
    rw [List.mem_filter] at hq2
    have hqp : q = p := List.inj_on_of_nodup_map hids hq2.1 hp (by simpa using hid)
    subst hqp
    simpa using hq2.2
  · intro hd
    have hpf : p ∈ db.filter
        (fun q => decide (distSphere q.location (ST_MakePoint lon lat) ≤ radius_km * 1000)) :=
      List.mem_filter.2 ⟨hp, by simpa using hd⟩
    have hpm := (List.mergeSort_perm
      (db.filter (fun q =>
        decide (distSphere q.location (ST_MakePoint lon lat) ≤ radius_km * 1000)))
      (fun a b => decide (distSphere a.location (ST_MakePoint lon lat)
        ≤ distSphere b.location (ST_MakePoint lon lat)))).mem_iff.2 hpf
    refine ⟨⟨p.id, p.name, p.address, p.latitude, p.longitude,
      round2 (distSphere p.location (ST_MakePoint lon lat) / 1000)⟩, ?_, rfl⟩
    simp only [get_nearby_properties, nearby_rows, List.map_map, List.mem_map]
    exact ⟨p, hpm, rfl⟩

/-- Witness for C1 at a concrete input: with a zero distance function and a
one-row store, the stored property appears within radius 1 km. -/
theorem nearby_radius_filter_witness :
    (∃ r ∈ get_nearby_properties (fun _ _ => 0)
        [⟨1, "n", "a", .finite 0, .finite 0, WKTPoint (.finite 0) (.finite 0)⟩] 0 0 1,
      r.id = (⟨1, "n", "a", .finite 0, .finite 0,
        WKTPoint (.finite 0) (.finite 0)⟩ : Property).id)
      ↔ (0 : ℚ) ≤ 1 * 1000 :=
  nearby_radius_filter (fun _ _ => 0)
    [⟨1, "n", "a", .finite 0, .finite 0, WKTPoint (.finite 0) (.finite 0)⟩] 0 0 1
    ⟨1, "n", "a", .finite 0, .finite 0, WKTPoint (.finite 0) (.finite 0)⟩
    (by simp) (by simp)

/-- C2: the result list is ordered ascending by the unrounded distance (the
rows are pairwise nondecreasing in the unrounded `distance_km` column,
computed as distance in meters divided by 1000), and the displayed
`distance_km` of each result is exactly that unrounded value rounded to 2
decimal places — applied row-by-row after ordering, so the rounding never
affects the ordering. -/
theorem nearby_ordered_and_rounded (distSphere : Point → Point → ℚ)
    (db : List Property) (lat lon radius_km : ℚ) :
    ((nearby_rows distSphere db lat lon radius_km).map
        (fun r => r.distance_km)).Pairwise (· ≤ ·) ∧
    get_nearby_properties distSphere db lat lon radius_km
      = (nearby_rows distSphere db lat lon radius_km).map
          (fun r => { r with distance_km := round2 r.distance_km }) := by
  refine ⟨?_, rfl⟩
  simp only [nearby_rows, List.map_map]
  rw [List.pairwise_map]
  refine (pairwise_mergeSort_le
    (fun p => distSphere p.location (ST_MakePoint lon lat)) _).imp ?_
  intro a b hab
  simp only [Function.comp]
  exact (div_le_div_iff_of_pos_right (by norm_num : (0 : ℚ) < 1000)).2 hab

/-- C9: first-match policy — on a cache miss, when the provider returns a
non-empty candidate list whose first element's `'lat'`/`'lon'` parse to
`la`/`lo`, the resolved pair is exactly `(float(results[0]['lat']),
float(results[0]['lon']))`, whatever the other candidates are (the result
does not depend on `rest`). -/
theorem geocode_first_match (c : Cache) (t : ℕ) (first : JValue)
    (rest : List JValue) (q : String) (la lo : ℚ)
    (hmiss : cacheGet c t ("geocode:" ++ strLower q) = none)
    (hlat : pyGetFloat first "lat" = .ok la)
    (hlon : pyGetFloat first "lon" = .ok lo) :
    geocode_location c t (.arr (first :: rest)) q
      = .ok ⟨la, lo, cacheSet c t ("geocode:" ++ strLower q) (la, lo) 86400, true⟩ := by
  simp only [geocode_location, hmiss, hlat, hlon]

/-- Witness for C9 at a concrete input: two candidates; only the first
determines the result — the second candidate's coordinates (9, 9) are
ignored. -/
theorem geocode_first_match_witness :
    geocode_location [] 0
      (JValue.arr [JValue.obj [("lat", JValue.num 1), ("lon", JValue.num 2)],
        JValue.obj [("lat", JValue.num 9), ("lon", JValue.num 9)]]) "x"
      = .ok ⟨1, 2, cacheSet [] 0 ("geocode:" ++ strLower "x") (1, 2) 86400, true⟩ :=
  geocode_first_match [] 0 (JValue.obj [("lat", JValue.num 1), ("lon", JValue.num 2)])
    [JValue.obj [("lat", JValue.num 9), ("lon", JValue.num 9)]] "x" 1 2
    rfl rfl rfl

/-- C4 counterexample: on an uncached query, a malformed provider result set
— a non-empty list whose first element is an empty object — does NOT fail
with `LocationNotFound` (HTTP 400): the code raises an uncaught `KeyError`
instead while evaluating `first['lat']`. -/
theorem geocode_malformed_keyerror :
    geocode_location [] 0 (JValue.arr [JValue.obj []]) "x" = .pyError "KeyError" [] ∧
    geocode_location [] 0 (JValue.arr [JValue.obj []]) "x"
      ≠ .httpError 400 "Location not found" [] := by
  exact ⟨rfl, by decide⟩

/-- C4 amended: on an uncached query, `geocode_location` fails with
`LocationNotFound` (HTTP 400 `'Location not found'`) exactly when the
provider's decoded response is not a non-empty list (empty list or non-list
value); a non-empty list whose first element lacks parseable coordinates
raises an uncaught parse error instead. -/
theorem geocode_400_iff_not_nonempty_list (c : Cache) (t : ℕ)
    (provider : JValue) (q : String)
    (hmiss : cacheGet c t ("geocode:" ++ strLower q) = none) :
    geocode_location c t provider q = .httpError 400 "Location not found" c
      ↔ isNonemptyList provider = false := by
  simp only [geocode_location, hmiss]
  cases provider with
  | arr xs =>
    cases xs with
    | nil => simp [isNonemptyList]
    | cons first rest =>
      simp only [isNonemptyList]
      constructor
      · intro h
        cases hlat : pyGetFloat first "lat" with
        | error e => rw [hlat] at h; exact GeocodeResult.noConfusion h
        | ok la =>
          rw [hlat] at h
          cases hlon : pyGetFloat first "lon" with
          | error e => rw [hlon] at h; exact GeocodeResult.noConfusion h
          | ok lo => rw [hlon] at h; exact GeocodeResult.noConfusion h
      · intro h; exact Bool.noConfusion h
  | null => simp [isNonemptyList]
  | bool b => simp [isNonemptyList]
  | num n => simp [isNonemptyList]
  | str s => simp [isNonemptyList]
  | obj fields => simp [isNonemptyList]

/-- Witness for the amended C4 at a concrete input: a non-list provider
response (a bare number) on an uncached query yields HTTP 400. -/
theorem geocode_400_iff_not_nonempty_list_witness :
    geocode_location [] 0 (JValue.num 5) "x" = .httpError 400 "Location not found" []
      ↔ isNonemptyList (JValue.num 5) = false :=
  geocode_400_iff_not_nonempty_list [] 0 (JValue.num 5) "x" rfl

/-- C6 counterexample: a create request whose latitude is `nan` and whose
longitude is `inf` — not finite reals — is not rejected: the row is
persisted into the (initially empty) store. -/
theorem create_persists_nonfinite :
    (create_property ⟨"a", "b", PyFloat.nan, PyFloat.inf⟩ []).2
        = [⟨1, "a", "b", PyFloat.nan, PyFloat.inf, ⟨PyFloat.inf, PyFloat.nan, 4326⟩⟩] ∧
    (create_property ⟨"a", "b", PyFloat.nan, PyFloat.inf⟩ []).2 ≠ [] := by
  exact ⟨rfl, by decide⟩

/-- C6 amended: `Create` performs no finiteness validation — every request
whose coordinates parse as floats, non-finite values included, is persisted
as a new row carrying exactly the request's latitude and longitude. -/
theorem create_always_persists (prop : PropertyCreate) (db : List Property) :
    (create_property prop db).2 = db ++ [(create_property prop db).1] ∧
    (create_property prop db).1.latitude = prop.latitude ∧
    (create_property prop db).1.longitude = prop.longitude :=
  ⟨rfl, rfl, rfl⟩

end GeoMap
